import Mathlib

/-!
Shallow embedding of the pp-fee-updater repository (src/src/updater.rs and
src/src/main.rs).

Modelling conventions:
- A Starknet felt is modelled as a natural number: `Felt := Nat`. Every felt
  value that reaches the decision arithmetic is first converted to `u128`
  and the conversion fails for values at or above `2 ^ 128`, so the field
  prime never matters for the embedded code paths.
- Rust `u128` arithmetic is modelled on `Nat` with an explicit wrap
  `% 2 ^ 128` on multiplication (release-profile wrapping semantics);
  `u128` division is plain `Nat` division.
- Rust `i128` casts and arithmetic (used only by the logged percent-drift
  value) are modelled on `Int` with an explicit two-complement wrap.
- Every external call performed during one reconciliation cycle is an input
  read from a `ProviderEnv` record: the receipt lookup, the contract reads,
  the latest-block read, the chain-id read and the transaction submission.
  Fallible calls are `Except` values. Each function additionally returns the
  list of external effects it performed, so that short-circuit ("this read
  never happened") properties are statable.
-/

namespace PPFeeUpdater

/-- A Starknet field element, as the natural number the code extracts
with to_biguint. -/
abbrev Felt := Nat

/-- The exclusive upper bound of the Rust u128 type. -/
def U128MOD : Nat := 2 ^ 128

/-- Rust u128 multiplication with release-profile wrapping semantics. -/
def u128Mul (a b : Nat) : Nat := a * b % U128MOD

/-- Two-complement wrap of an integer into the i128 value range,
modelling Rust i128 casts and wrapping arithmetic. -/
def i128Wrap (z : Int) : Int :=
  let m := Int.emod z ((2 : Int) ^ 128)
  if m < (2 : Int) ^ 127 then m else m - (2 : Int) ^ 128

/-- The error enum UpdaterError from updater.rs. The provider variant
stands for starknet provider errors, whose payload the code never
inspects. -/
inductive UpdaterError where
  | provider
  | account
  | conversion (msg : String)
  | invalidGasPrice (msg : String)
  | transactionFailed
  deriving Repr, DecidableEq

/-- The struct PendingUpdate from updater.rs: the submitted gas price
together with the hash of the submitting transaction. -/
structure PendingUpdate where
  gasPrice : Felt
  txHash : Felt
  deriving Repr, DecidableEq

/-- The enum TransactionStatus from updater.rs. -/
inductive TransactionStatus where
  | confirmed
  | failed
  | pending
  deriving Repr, DecidableEq

/-- The relevant part of MaybePendingBlockWithTxHashes: either a closed
block carrying the l1 gas price in fri, or a pending block. -/
inductive MaybePendingBlock where
  | block (priceInFri : Felt)
  | pendingBlock
  deriving Repr, DecidableEq

/-- One external call performed during a cycle. -/
inductive Effect where
  | receiptLookup
  | contractRead
  | blockRead
  | submitTx
  deriving Repr, DecidableEq

/-- The outcomes of all external calls a single reconciliation cycle can
perform. The code reads each at most once per cycle, in program order. -/
structure ProviderEnv where
  /-- Result of get_transaction_receipt: ok when a receipt was obtained,
  error for any failure of the lookup (not found or transport error; the
  code does not distinguish them and never inspects the receipt body). -/
  receiptResult : Except Unit Unit
  /-- Result of the get_current_gas_price read inside
  check_if_update_completed. -/
  statusContractPrice : Except Unit Felt
  /-- Result of the second get_current_gas_price read in the mismatch
  branch of check_transaction_status. -/
  statusContractPrice2 : Except Unit Felt
  /-- Result of get_block_with_tx_hashes at the latest tag. -/
  latestBlock : Except Unit MaybePendingBlock
  /-- Result of the get_current_gas_price read in check_fee_update. -/
  contractPrice : Except Unit Felt
  /-- Whether the chain_id read in update_fee succeeds. -/
  chainIdOk : Bool
  /-- Result of sending the invoke transaction: the transaction hash on
  success. -/
  submitResult : Except Unit Felt

/-- check_if_update_completed from updater.rs: read the contract gas
price and compare it with the expected (submitted) price. -/
def checkIfUpdateCompleted (env : ProviderEnv) (expectedGasPrice : Felt) :
    Except UpdaterError Bool × List Effect :=
  (match env.statusContractPrice with
   | .error _ => .error .provider
   | .ok currentContractPrice => .ok (decide (currentContractPrice = expectedGasPrice)),
   [Effect.contractRead])

/-- check_transaction_status from updater.rs. A failed receipt lookup is
mapped to the pending status; a found receipt leads to the contract-state
comparison, whose read error is mapped to the failed status. -/
def checkTransactionStatus (env : ProviderEnv) (expectedGasPrice : Felt) :
    Except UpdaterError TransactionStatus × List Effect :=
  match env.receiptResult with
  | .ok _ =>
    (match checkIfUpdateCompleted env expectedGasPrice with
     | (.ok true, eff) => (.ok .confirmed, Effect.receiptLookup :: eff)
     | (.ok false, eff) =>
        let actualValue : Felt :=
          match env.statusContractPrice2 with
          | .ok v => v
          | .error _ => 0
        if actualValue = expectedGasPrice then
          (.ok .confirmed, Effect.receiptLookup :: (eff ++ [Effect.contractRead]))
        else
          (.ok .failed, Effect.receiptLookup :: (eff ++ [Effect.contractRead]))
     | (.error _, eff) => (.ok .failed, Effect.receiptLookup :: eff))
  | .error _ => (.ok .pending, [Effect.receiptLookup])

/-- The felt-to-u128 conversion in check_fee_update: to_biguint followed
by try_into, failing with a Conversion error for values at or above
2 ^ 128. -/
def feltToU128 (f : Felt) (msg : String) : Except UpdaterError Nat :=
  if f < U128MOD then .ok f else .error (.conversion msg)

/-- The pure decision core of check_fee_update (threshold comparison and
new-price computation) on already-converted u128 values. -/
def feeDecision (contractPriceU128 currentPriceU128 upTh downTh upBuf downBuf : Nat) :
    Bool × Felt :=
  let upwardThreshold := u128Mul contractPriceU128 upTh / 100
  let downwardThreshold := u128Mul contractPriceU128 downTh / 100
  let sd : Bool × String :=
    if currentPriceU128 > upwardThreshold then (true, "upward")
    else if currentPriceU128 < downwardThreshold then (true, "downward")
    else (false, "none")
  let newGasPrice : Felt :=
    if sd.1 then
      if sd.2 = "upward" then u128Mul currentPriceU128 upBuf / 100
      else if sd.2 = "downward" then u128Mul currentPriceU128 downBuf / 100
      else currentPriceU128
    else 0
  (sd.1, newGasPrice)

/-- The percent-drift value computed for the logging statement in
check_fee_update, with the i128 casts and wrapping arithmetic of the
source. -/
def percentDrift (currentPriceU128 contractPriceU128 : Nat) : Int :=
  if contractPriceU128 > 0 then
    Int.tdiv
      (i128Wrap (i128Wrap (i128Wrap (currentPriceU128 : Int) - i128Wrap (contractPriceU128 : Int)) * 100))
      (i128Wrap (contractPriceU128 : Int))
  else 0

/-- The price-comparison part of check_fee_update (everything after the
pending-transaction phase): read the latest block gas price, read the
contract gas price, convert both to u128 and run the decision core. -/
def priceCheckPhase (env : ProviderEnv) (upTh downTh upBuf downBuf : Nat) :
    Except UpdaterError (Bool × Felt) × List Effect :=
  match env.latestBlock with
  | .error _ => (.error .provider, [Effect.blockRead])
  | .ok .pendingBlock =>
      (.error (.invalidGasPrice "Cannot get gas price from pending block"), [Effect.blockRead])
  | .ok (.block currentGasPrice) =>
    match env.contractPrice with
    | .error _ => (.error .provider, [Effect.blockRead, Effect.contractRead])
    | .ok gasPriceOnContract =>
      let r : Except UpdaterError (Bool × Felt) :=
        match feltToU128 gasPriceOnContract "Contract gas price too large for u128" with
        | .error e => .error e
        | .ok contractPriceU128 =>
          match feltToU128 currentGasPrice "Current gas price too large for u128" with
          | .error e => .error e
          | .ok currentPriceU128 =>
            .ok (feeDecision contractPriceU128 currentPriceU128 upTh downTh upBuf downBuf)
      (r, [Effect.blockRead, Effect.contractRead])

/-- check_fee_update from updater.rs: the pending-transaction phase
followed, unless a pending transaction is still outstanding, by the price
comparison. Returns the tracker after the call, the returned
Result<(bool, Felt)> and the external effects performed. -/
def checkFeeUpdate (env : ProviderEnv) (pendingUpdate : Option PendingUpdate)
    (upTh downTh upBuf downBuf : Nat) :
    Option PendingUpdate × Except UpdaterError (Bool × Felt) × List Effect :=
  match pendingUpdate with
  | some pending =>
    (match checkTransactionStatus env pending.gasPrice with
     | (.ok .confirmed, eff) =>
        let r := priceCheckPhase env upTh downTh upBuf downBuf
        (none, r.1, eff ++ r.2)
     | (.ok .failed, eff) =>
        let r := priceCheckPhase env upTh downTh upBuf downBuf
        (none, r.1, eff ++ r.2)
     | (.ok .pending, eff) => (some pending, .ok (false, 0), eff)
     | (.error _, eff) =>
        let r := priceCheckPhase env upTh downTh upBuf downBuf
        (none, r.1, eff ++ r.2))
  | none =>
    let r := priceCheckPhase env upTh downTh upBuf downBuf
    (none, r.1, r.2)

/-- update_fee from updater.rs: read the chain id (propagating a provider
error without touching the tracker), then send the invoke transaction; on
success record the pending update, on failure set the tracker to none and
return an Account error. -/
def updateFee (env : ProviderEnv) (gasPrice : Felt)
    (pendingUpdate : Option PendingUpdate) :
    Option PendingUpdate × Except UpdaterError Unit :=
  if env.chainIdOk then
    match env.submitResult with
    | .ok transactionHash =>
        (some { gasPrice := gasPrice, txHash := transactionHash }, .ok ())
    | .error _ => (none, .error .account)
  else
    (pendingUpdate, .error .provider)

/-- The observable outcome of one block cycle of the main loop. -/
inductive CycleOutcome where
  | checkFailed (e : UpdaterError)
  | updateSubmitted (newPrice : Felt)
  | submitFailed (e : UpdaterError)
  | noUpdateNeeded
  deriving Repr, DecidableEq

/-- One iteration of the block event loop in main.rs: run
check_fee_update, then, exactly when it returned true, run update_fee
with the returned price. -/
def loopStep (env : ProviderEnv) (pendingUpdate : Option PendingUpdate)
    (upTh downTh upBuf downBuf : Nat) :
    Option PendingUpdate × CycleOutcome × List Effect :=
  let c := checkFeeUpdate env pendingUpdate upTh downTh upBuf downBuf
  match c.2.1 with
  | .error e => (c.1, .checkFailed e, c.2.2)
  | .ok (shouldUpdate, newPrice) =>
    if shouldUpdate then
      let u := updateFee env newPrice c.1
      match u.2 with
      | .ok _ => (u.1, .updateSubmitted newPrice, c.2.2 ++ [Effect.submitTx])
      | .error e => (u.1, .submitFailed e, c.2.2 ++ [Effect.submitTx])
    else
      (c.1, .noUpdateNeeded, c.2.2)

/-- The tracker state after running the event loop over a sequence of
per-block environments, starting from a given tracker state. -/
def runLoop (envs : List ProviderEnv) (upTh downTh upBuf downBuf : Nat)
    (pendingUpdate : Option PendingUpdate) : Option PendingUpdate :=
  envs.foldl (fun s env => (loopStep env s upTh downTh upBuf downBuf).1) pendingUpdate

/-- The piecewise reference decision written from the words of the spec:
compare the network price against the threshold percentages of the
contract price and apply the buffer percentage of the matching direction,
all in unbounded integer arithmetic with integer division. -/
def specFeeDecision (contractPrice networkPrice upTh downTh upBuf downBuf : Nat) :
    Bool × Nat :=
  if networkPrice > contractPrice * upTh / 100 then
    (true, networkPrice * upBuf / 100)
  else if networkPrice < contractPrice * downTh / 100 then
    (true, networkPrice * downBuf / 100)
  else
    (false, 0)

/-! Concrete inputs used by witnesses and counterexamples. -/

/-- A sample pending update. -/
def pu0 : PendingUpdate := { gasPrice := 100, txHash := 7 }

/-- A pending update whose submitted price matches the contract price of
envConfirm. -/
def pu1 : PendingUpdate := { gasPrice := 1000, txHash := 9 }

/-- An environment whose receipt lookup fails. -/
def envNoReceipt : ProviderEnv :=
  { receiptResult := .error ()
    statusContractPrice := .ok 0
    statusContractPrice2 := .ok 0
    latestBlock := .ok (.block 1100)
    contractPrice := .ok 1000
    chainIdOk := true
    submitResult := .ok 42 }

/-- An environment where the receipt is found and the contract already
holds the price 1000, with the network price also at 1000 (inside the
threshold band). -/
def envConfirm : ProviderEnv :=
  { receiptResult := .ok ()
    statusContractPrice := .ok 1000
    statusContractPrice2 := .ok 1000
    latestBlock := .ok (.block 1000)
    contractPrice := .ok 1000
    chainIdOk := true
    submitResult := .ok 42 }

/-- An environment with no obstacle to submission: network price 1100
against contract price 1000, submission succeeding with hash 42. -/
def envSubmit : ProviderEnv :=
  { receiptResult := .ok ()
    statusContractPrice := .ok 1000
    statusContractPrice2 := .ok 1000
    latestBlock := .ok (.block 1100)
    contractPrice := .ok 1000
    chainIdOk := true
    submitResult := .ok 42 }

/-- An environment identical to envSubmit except that sending the invoke
transaction fails. -/
def envSubmitFail : ProviderEnv :=
  { receiptResult := .ok ()
    statusContractPrice := .ok 1000
    statusContractPrice2 := .ok 1000
    latestBlock := .ok (.block 1100)
    contractPrice := .ok 1000
    chainIdOk := true
    submitResult := .error () }

/-- An environment whose contract price does not fit in u128. -/
def envContractOverflow : ProviderEnv :=
  { receiptResult := .ok ()
    statusContractPrice := .ok 0
    statusContractPrice2 := .ok 0
    latestBlock := .ok (.block 5)
    contractPrice := .ok (2 ^ 128)
    chainIdOk := true
    submitResult := .ok 42 }

/-- An environment with the network price inside the threshold band of
the contract price (950 against 1000 with thresholds 105 and 85). -/
def envInBand : ProviderEnv :=
  { receiptResult := .ok ()
    statusContractPrice := .ok 0
    statusContractPrice2 := .ok 0
    latestBlock := .ok (.block 950)
    contractPrice := .ok 1000
    chainIdOk := true
    submitResult := .ok 42 }

/-! Helper lemmas shared by the claim theorems. -/

theorem priceCheckPhase_effects (env : ProviderEnv) (ut dt ub db : Nat) :
    (priceCheckPhase env ut dt ub db).2 = [Effect.blockRead] ∨
    (priceCheckPhase env ut dt ub db).2 = [Effect.blockRead, Effect.contractRead] := by
  unfold priceCheckPhase
  rcases hb : env.latestBlock with u | mb
  · exact Or.inl rfl
  · cases mb with
    | pendingBlock => exact Or.inl rfl
    | block n =>
      rcases hc : env.contractPrice with u | c
      · exact Or.inr rfl
      · exact Or.inr rfl

theorem priceCheckPhase_blockRead (env : ProviderEnv) (ut dt ub db : Nat) :
    Effect.blockRead ∈ (priceCheckPhase env ut dt ub db).2 := by
  rcases priceCheckPhase_effects env ut dt ub db with h | h <;> rw [h] <;> decide

theorem priceCheckPhase_no_submit (env : ProviderEnv) (ut dt ub db : Nat) :
    Effect.submitTx ∉ (priceCheckPhase env ut dt ub db).2 := by
  rcases priceCheckPhase_effects env ut dt ub db with h | h <;> rw [h] <;> decide

theorem checkTransactionStatus_no_submit (env : ProviderEnv) (x : Felt) :
    Effect.submitTx ∉ (checkTransactionStatus env x).2 := by
  unfold checkTransactionStatus checkIfUpdateCompleted
  rcases hr : env.receiptResult with u | u
  · simp
  · rcases hs : env.statusContractPrice with v | v
    · simp
    · by_cases hv : v = x
      · simp [hv]
      · simp only [decide_eq_false hv]
        split_ifs <;> simp

theorem checkTransactionStatus_receipt_error (env : ProviderEnv) (x : Felt)
    (h : env.receiptResult = .error ()) :
    checkTransactionStatus env x = (.ok .pending, [Effect.receiptLookup]) := by
  unfold checkTransactionStatus
  rw [h]

theorem checkTransactionStatus_receipt_ok (env : ProviderEnv) (x : Felt)
    (h : env.receiptResult = .ok ()) :
    (checkTransactionStatus env x).1 = .ok .confirmed ∨
    (checkTransactionStatus env x).1 = .ok .failed := by
  unfold checkTransactionStatus checkIfUpdateCompleted
  rw [h]
  rcases hs : env.statusContractPrice with v | v
  · simp
  · by_cases hv : v = x
    · simp [hv]
    · simp only [decide_eq_false hv]
      split_ifs <;> simp

theorem checkFeeUpdate_no_submit (env : ProviderEnv) (s : Option PendingUpdate)
    (ut dt ub db : Nat) :
    Effect.submitTx ∉ (checkFeeUpdate env s ut dt ub db).2.2 := by
  have hp := priceCheckPhase_no_submit env ut dt ub db
  cases s with
  | none => simpa [checkFeeUpdate] using hp
  | some p =>
    have ht := checkTransactionStatus_no_submit env p.gasPrice
    rcases hcts : checkTransactionStatus env p.gasPrice with ⟨r, eff⟩
    rw [hcts] at ht
    rcases r with e | st
    · simp only [checkFeeUpdate, hcts, List.mem_append]
      exact not_or.mpr ⟨ht, hp⟩
    · cases st
      · simp only [checkFeeUpdate, hcts, List.mem_append]
        exact not_or.mpr ⟨ht, hp⟩
      · simp only [checkFeeUpdate, hcts, List.mem_append]
        exact not_or.mpr ⟨ht, hp⟩
      · simp only [checkFeeUpdate, hcts]
        exact ht

theorem checkFeeUpdate_tracker_some (env : ProviderEnv) (s : Option PendingUpdate)
    (ut dt ub db : Nat) (p : PendingUpdate)
    (h : (checkFeeUpdate env s ut dt ub db).1 = some p) :
    (checkFeeUpdate env s ut dt ub db).2.1 = .ok (false, 0) := by
  cases s with
  | none => simp [checkFeeUpdate] at h
  | some q =>
    rcases hcts : checkTransactionStatus env q.gasPrice with ⟨r, eff⟩
    rcases r with e | st
    · simp only [checkFeeUpdate, hcts] at h
      simp at h
    · cases st
      · simp only [checkFeeUpdate, hcts] at h
        simp at h
      · simp only [checkFeeUpdate, hcts] at h
        simp at h
      · simp only [checkFeeUpdate, hcts]

theorem feeDecision_false_zero (c n ut dt ub db : Nat)
    (h : (feeDecision c n ut dt ub db).1 = false) :
    (feeDecision c n ut dt ub db).2 = 0 := by
  by_cases hup : u128Mul c ut / 100 < n
  · simp [feeDecision, hup] at h
  · by_cases hdown : n < u128Mul c dt / 100
    · simp [feeDecision, hup, hdown] at h
    · simp [feeDecision, hup, hdown]

theorem priceCheckPhase_false_zero (env : ProviderEnv) (ut dt ub db : Nat) (x : Felt)
    (h : (priceCheckPhase env ut dt ub db).1 = .ok (false, x)) : x = 0 := by
  unfold priceCheckPhase at h
  rcases hb : env.latestBlock with u | mb
  · rw [hb] at h; simp at h
  · rw [hb] at h
    cases mb with
    | pendingBlock => simp at h
    | block n =>
      rcases hc : env.contractPrice with u | c
      · rw [hc] at h; simp at h
      · rw [hc] at h
        by_cases h1 : c < U128MOD
        · by_cases h2 : n < U128MOD
          · simp only [feltToU128, if_pos h1, if_pos h2] at h
            simp at h
            have h1f : (feeDecision c n ut dt ub db).1 = false := by rw [h]
            have h2z := feeDecision_false_zero c n ut dt ub db h1f
            rw [h] at h2z
            exact h2z
          · simp [feltToU128, if_pos h1, if_neg h2] at h
        · simp [feltToU128, if_neg h1] at h

/-! Claim theorems. -/

/-- C1, counterexample: at contract price 2 pow 127 equal to the network
price, the u128 threshold multiplication wraps and the engine decides an
upward update with new price 0, while the piecewise spec reference
decides that no update is needed. -/
theorem feeDecision_deviates_from_specFeeDecision :
    feeDecision (2 ^ 127) (2 ^ 127) 105 85 110 90 ≠
      specFeeDecision (2 ^ 127) (2 ^ 127) 105 85 110 90 := by decide

/-- C1, amended: whenever the threshold products and the buffer products
fit in u128 (so that no multiplication wraps), the decision core of
check_fee_update computes exactly the piecewise reference of the spec:
upward with price network times upward buffer over 100 when the network
price exceeds the upward threshold, downward with the downward buffer
when below the downward threshold, otherwise no update and price 0, all
in integer division. -/
theorem feeDecision_matches_specFeeDecision (c n ut dt ub db : Nat)
    (h1 : c * ut < U128MOD) (h2 : c * dt < U128MOD)
    (h3 : n * ub < U128MOD) (h4 : n * db < U128MOD) :
    feeDecision c n ut dt ub db = specFeeDecision c n ut dt ub db := by
  simp only [feeDecision, specFeeDecision, u128Mul]
  simp only [Nat.mod_eq_of_lt h1, Nat.mod_eq_of_lt h2, Nat.mod_eq_of_lt h3, Nat.mod_eq_of_lt h4]
  by_cases hup : c * ut / 100 < n
  · simp [hup]
  · by_cases hdown : n < c * dt / 100
    · simp only [gt_iff_lt, hup, if_false, hdown, if_true]
      rfl
    · simp [hup, hdown]

/-- C1, witness: the amended theorem applied at scenario A of the spec,
contract price 1000 and network price 1100 with thresholds 105 and 85 and
buffers 110 and 90, where both sides decide an upward update to 1210. -/
theorem feeDecision_matches_specFeeDecision_witness :
    feeDecision 1000 1100 105 85 110 90 = specFeeDecision 1000 1100 105 85 110 90 :=
  feeDecision_matches_specFeeDecision 1000 1100 105 85 110 90
    (by decide) (by decide) (by decide) (by decide)

/-- C3: with a pending update present and the receipt lookup not
returning a receipt, check_fee_update returns false with price 0
immediately, leaves the tracker unchanged, and its only external effect
is the receipt lookup: no block read, no contract read and no submission
happen in that cycle. -/
theorem pending_no_receipt_short_circuit (env : ProviderEnv) (p : PendingUpdate)
    (ut dt ub db : Nat) (h : env.receiptResult = .error ()) :
    checkFeeUpdate env (some p) ut dt ub db =
      (some p, .ok (false, 0), [Effect.receiptLookup]) := by
  simp only [checkFeeUpdate, checkTransactionStatus_receipt_error env p.gasPrice h]

/-- C3, witness: the short-circuit theorem applied to a concrete
environment whose receipt lookup fails. -/
theorem pending_no_receipt_short_circuit_witness :
    checkFeeUpdate envNoReceipt (some pu0) 105 85 110 90 =
      (some pu0, .ok (false, 0), [Effect.receiptLookup]) :=
  pending_no_receipt_short_circuit envNoReceipt pu0 105 85 110 90 rfl

/-- C2: the tracker is a single optional value, and the loop never
submits while an unresolved pending update is present: when a pending
update exists and the receipt lookup yields nothing, the cycle attempts
no submission and leaves the tracker unchanged; and any cycle that does
attempt a submission does so only after the pending-update phase has
left the tracker empty. -/
theorem at_most_one_pending_no_double_submit (env : ProviderEnv) (p : PendingUpdate)
    (ut dt ub db : Nat) :
    (env.receiptResult = .error () →
      loopStep env (some p) ut dt ub db =
        (some p, CycleOutcome.noUpdateNeeded, [Effect.receiptLookup])) ∧
    (∀ s : Option PendingUpdate,
      Effect.submitTx ∈ (loopStep env s ut dt ub db).2.2 →
      (checkFeeUpdate env s ut dt ub db).1 = none) := by
  constructor
  · intro h
    simp only [loopStep, checkFeeUpdate, checkTransactionStatus_receipt_error env p.gasPrice h]
    rfl
  · intro s hmem
    rcases h1 : (checkFeeUpdate env s ut dt ub db).1 with _ | q
    · rfl
    · exfalso
      have hres := checkFeeUpdate_tracker_some env s ut dt ub db q h1
      simp only [loopStep, hres] at hmem
      exact checkFeeUpdate_no_submit env s ut dt ub db hmem

/-- C2, witness: a cycle with an unresolved pending update keeps the
tracker and submits nothing, and a concrete submitting cycle has an
empty tracker after its pending-update phase. -/
theorem at_most_one_pending_no_double_submit_witness :
    loopStep envNoReceipt (some pu0) 105 85 110 90 =
      (some pu0, CycleOutcome.noUpdateNeeded, [Effect.receiptLookup]) ∧
    (checkFeeUpdate envSubmit none 105 85 110 90).1 = none :=
  ⟨(at_most_one_pending_no_double_submit envNoReceipt pu0 105 85 110 90).1 rfl,
   (at_most_one_pending_no_double_submit envSubmit pu0 105 85 110 90).2 none (by decide)⟩

/-- C4, counterexample: with a pending update present and the receipt
lookup returning an error, check_fee_update keeps the tracker set and
performs no block read, contradicting the claim that an error while
reading the receipt clears the tracker and falls through to a fresh
price comparison in the same cycle. -/
theorem receipt_read_error_does_not_clear :
    (checkFeeUpdate envNoReceipt (some pu0) 105 85 110 90).1 = some pu0 ∧
    Effect.blockRead ∉ (checkFeeUpdate envNoReceipt (some pu0) 105 85 110 90).2.2 := by
  decide

/-- C4, amended: whenever the pending transaction receipt is found
(whether the re-read contract price matches the submitted price, does
not match, or the contract-state read errors), the tracker is cleared
and the engine falls through to a fresh price comparison in the same
cycle; an error of the receipt lookup itself is instead treated as a
still-pending transaction and leaves the tracker unchanged. -/
theorem receipt_found_clears_and_falls_through (env : ProviderEnv) (p : PendingUpdate)
    (ut dt ub db : Nat) (h : env.receiptResult = .ok ()) :
    (checkFeeUpdate env (some p) ut dt ub db).1 = none ∧
    Effect.blockRead ∈ (checkFeeUpdate env (some p) ut dt ub db).2.2 := by
  have hd := checkTransactionStatus_receipt_ok env p.gasPrice h
  have hbr := priceCheckPhase_blockRead env ut dt ub db
  rcases hcts : checkTransactionStatus env p.gasPrice with ⟨r, eff⟩
  rw [hcts] at hd
  rcases r with e | st
  · simp at hd
  · cases st
    · constructor
      · simp only [checkFeeUpdate, hcts]
      · simp only [checkFeeUpdate, hcts]
        exact List.mem_append.mpr (Or.inr hbr)
    · constructor
      · simp only [checkFeeUpdate, hcts]
      · simp only [checkFeeUpdate, hcts]
        exact List.mem_append.mpr (Or.inr hbr)
    · simp at hd

/-- C4, witness: the amended theorem applied to a concrete environment
where the receipt is found and the contract holds the submitted price. -/
theorem receipt_found_clears_and_falls_through_witness :
    (checkFeeUpdate envConfirm (some pu1) 105 85 110 90).1 = none ∧
    Effect.blockRead ∈ (checkFeeUpdate envConfirm (some pu1) 105 85 110 90).2.2 :=
  receipt_found_clears_and_falls_through envConfirm pu1 105 85 110 90 rfl

/-- C5, counterexample: fee-unit arithmetic is done on fixed-width u128
values, not unbounded integers: the threshold multiplication at contract
price 2 pow 127 wraps, and the wrap changes the decision of the engine
against the unbounded-arithmetic reference. -/
theorem u128_multiplication_wraps :
    u128Mul (2 ^ 127) 105 ≠ 2 ^ 127 * 105 ∧
    feeDecision (2 ^ 127) (2 ^ 126) 105 85 110 90 ≠
      specFeeDecision (2 ^ 127) (2 ^ 126) 105 85 110 90 := by decide

/-- C5, amended: fee-unit arithmetic is performed on fixed-width 128-bit
unsigned integers; any overflow while converting a chain value to u128 is
reported as a Conversion error (a variant distinct from provider errors)
rather than silently truncating, for the contract price and for the
network price; and the threshold and buffer multiplications do not wrap
as long as the products are below 2 pow 128. -/
theorem bounded_arithmetic_and_conversion_errors (env : ProviderEnv) (n c : Felt)
    (ut dt ub db : Nat)
    (hb : env.latestBlock = .ok (.block n)) (hc : env.contractPrice = .ok c) :
    (U128MOD ≤ c →
      (priceCheckPhase env ut dt ub db).1 =
        .error (.conversion "Contract gas price too large for u128")) ∧
    (c < U128MOD → U128MOD ≤ n →
      (priceCheckPhase env ut dt ub db).1 =
        .error (.conversion "Current gas price too large for u128")) ∧
    (∀ x y : Nat, x * y < U128MOD → u128Mul x y = x * y) := by
  refine ⟨?_, ?_, ?_⟩
  · intro hover
    simp only [priceCheckPhase, hb, hc, feltToU128, if_neg (Nat.not_lt.mpr hover)]
  · intro hcu hnover
    simp only [priceCheckPhase, hb, hc, feltToU128, if_pos hcu,
      if_neg (Nat.not_lt.mpr hnover)]
  · intro x y hxy
    exact Nat.mod_eq_of_lt hxy

/-- C5, witness: the amended theorem applied to an environment whose
contract price is exactly 2 pow 128, which is rejected with the distinct
Conversion error. -/
theorem bounded_arithmetic_and_conversion_errors_witness :
    (priceCheckPhase envContractOverflow 105 85 110 90).1 =
      .error (.conversion "Contract gas price too large for u128") :=
  (bounded_arithmetic_and_conversion_errors envContractOverflow 5 (2 ^ 128) 105 85 110 90
    rfl rfl).1 (by decide)

/-- C6, counterexample: on a submission failure update_fee does not leave
the tracker untouched in general: called with a tracker holding a pending
update, it resets the tracker to empty. -/
theorem submit_failure_not_untouched :
    (updateFee envSubmitFail 123 (some pu0)).1 ≠ some pu0 := by decide

/-- C6, amended: when sending the invoke transaction fails, update_fee
returns an Account error for the cycle and sets the tracker to empty, so
no pending update is recorded; since the event loop only calls update_fee
with an empty tracker, the tracker is unchanged there. -/
theorem submit_failure_propagates_and_records_nothing (env : ProviderEnv) (price : Felt)
    (s : Option PendingUpdate) (hcid : env.chainIdOk = true)
    (hsub : env.submitResult = .error ()) :
    updateFee env price s = (none, .error .account) ∧
    (s = none → (updateFee env price s).1 = s) := by
  have h : updateFee env price s = (none, .error .account) := by
    simp only [updateFee, hcid, hsub]
    rfl
  exact ⟨h, fun hs => by rw [h, hs]⟩

/-- C6, witness: the amended theorem applied to a failing submission with
an empty tracker: the error is propagated and the tracker stays empty. -/
theorem submit_failure_propagates_and_records_nothing_witness :
    updateFee envSubmitFail 1210 none = (none, .error .account) ∧
    (updateFee envSubmitFail 1210 none).1 = none :=
  ⟨(submit_failure_propagates_and_records_nothing envSubmitFail 1210 none rfl rfl).1,
   (submit_failure_propagates_and_records_nothing envSubmitFail 1210 none rfl rfl).2 rfl⟩

/-- C7: when the check decided an update with some new price and sending
the invoke transaction succeeds with some hash, the cycle records exactly
PendingUpdate with that price and that transaction hash in the tracker
and its outcome is the submitted update with that price. -/
theorem submit_success_records_pending (env : ProviderEnv) (s : Option PendingUpdate)
    (ut dt ub db : Nat) (price txh : Felt)
    (hcid : env.chainIdOk = true) (hsub : env.submitResult = .ok txh)
    (hchk : (checkFeeUpdate env s ut dt ub db).2.1 = .ok (true, price)) :
    (loopStep env s ut dt ub db).1 = some { gasPrice := price, txHash := txh } ∧
    (loopStep env s ut dt ub db).2.1 = CycleOutcome.updateSubmitted price := by
  simp only [loopStep, hchk, updateFee, hcid, hsub]
  exact ⟨rfl, rfl⟩

/-- C7, witness: a concrete submitting cycle (network 1100 against
contract 1000 with thresholds 105 and 85 and buffer 110) records the
pending update with price 1210 and hash 42 and reports it submitted. -/
theorem submit_success_records_pending_witness :
    (loopStep envSubmit none 105 85 110 90).1 = some { gasPrice := 1210, txHash := 42 } ∧
    (loopStep envSubmit none 105 85 110 90).2.1 = CycleOutcome.updateSubmitted 1210 :=
  submit_success_records_pending envSubmit none 105 85 110 90 1210 42 rfl rfl rfl

/-- C8: once the pending update is confirmed (receipt found and contract
price equal to the submitted price), the tracker is cleared, and when the
fresh comparison of the same cycle finds the network price inside the
threshold band, the cycle ends with no update needed, an empty tracker
and no submission attempt, so the confirmed update is not resubmitted. -/
theorem confirmation_idempotent (env : ProviderEnv) (p : PendingUpdate)
    (ut dt ub db : Nat) (n c : Felt)
    (hrec : env.receiptResult = .ok ())
    (hstat : env.statusContractPrice = .ok p.gasPrice)
    (hb : env.latestBlock = .ok (.block n)) (hc : env.contractPrice = .ok c)
    (hcu : c < U128MOD) (hnu : n < U128MOD)
    (hup : ¬ u128Mul c ut / 100 < n) (hdown : ¬ n < u128Mul c dt / 100) :
    (loopStep env (some p) ut dt ub db).1 = none ∧
    (loopStep env (some p) ut dt ub db).2.1 = CycleOutcome.noUpdateNeeded ∧
    Effect.submitTx ∉ (loopStep env (some p) ut dt ub db).2.2 := by
  have hcts : checkTransactionStatus env p.gasPrice =
      (.ok .confirmed, [Effect.receiptLookup, Effect.contractRead]) := by
    unfold checkTransactionStatus checkIfUpdateCompleted
    rw [hrec, hstat]
    simp
  have hfd : feeDecision c n ut dt ub db = (false, 0) := by
    simp [feeDecision, hup, hdown]
  have hpcp : priceCheckPhase env ut dt ub db =
      (.ok (false, 0), [Effect.blockRead, Effect.contractRead]) := by
    simp only [priceCheckPhase, hb, hc, feltToU128, if_pos hcu, if_pos hnu, hfd]
  have hcfu : checkFeeUpdate env (some p) ut dt ub db =
      (none, .ok (false, 0),
        [Effect.receiptLookup, Effect.contractRead,
         Effect.blockRead, Effect.contractRead]) := by
    simp only [checkFeeUpdate, hcts, hpcp]
    rfl
  simp only [loopStep, hcfu]
  exact ⟨rfl, rfl,
    (by decide : Effect.submitTx ∉
      [Effect.receiptLookup, Effect.contractRead, Effect.blockRead, Effect.contractRead])⟩

/-- C8, witness: the idempotence theorem applied to a confirmed update of
price 1000 with the network still at 1000: tracker cleared, no update
needed, no submission. -/
theorem confirmation_idempotent_witness :
    (loopStep envConfirm (some pu1) 105 85 110 90).1 = none ∧
    (loopStep envConfirm (some pu1) 105 85 110 90).2.1 = CycleOutcome.noUpdateNeeded ∧
    Effect.submitTx ∉ (loopStep envConfirm (some pu1) 105 85 110 90).2.2 :=
  confirmation_idempotent envConfirm pu1 105 85 110 90 1000 1000 rfl rfl rfl rfl
    (by decide) (by decide) (by decide) (by decide)

/-- C9: at contract price 0 the percent-drift value computed for the log
line is 0 (the guarded division is never taken), and the decision is
still computed from the configured percentage multipliers: thresholds
both evaluate to 0, so any positive network price triggers an upward
update with the upward buffer applied, and network price 0 yields no
update. -/
theorem zero_contract_price_drift_and_thresholds (cur ut dt ub db : Nat) :
    percentDrift cur 0 = 0 ∧
    feeDecision 0 cur ut dt ub db =
      (if 0 < cur then (true, u128Mul cur ub / 100) else (false, 0)) := by
  constructor
  · rfl
  · have h0u : u128Mul 0 ut = 0 := by simp [u128Mul]
    have h0d : u128Mul 0 dt = 0 := by simp [u128Mul]
    by_cases hcur : 0 < cur
    · simp [feeDecision, h0u, h0d, hcur]
    · simp [feeDecision, h0u, h0d, hcur]

/-- C10: whenever check_fee_update returns false as its boolean
component, the accompanying price component is exactly 0, so the
pending-still-outstanding outcome and the no-update-needed outcome are
the same value at the interface of the function. -/
theorem check_false_means_zero_price (env : ProviderEnv) (s : Option PendingUpdate)
    (ut dt ub db : Nat) (x : Felt)
    (h : (checkFeeUpdate env s ut dt ub db).2.1 = .ok (false, x)) :
    x = 0 ∧ (checkFeeUpdate env s ut dt ub db).2.1 = .ok (false, 0) := by
  have hx : x = 0 := by
    cases s with
    | none => exact priceCheckPhase_false_zero env ut dt ub db x h
    | some q =>
      rcases hcts : checkTransactionStatus env q.gasPrice with ⟨r, eff⟩
      rcases r with e | st
      · simp only [checkFeeUpdate, hcts] at h
        exact priceCheckPhase_false_zero env ut dt ub db x h
      · cases st
        · simp only [checkFeeUpdate, hcts] at h
          exact priceCheckPhase_false_zero env ut dt ub db x h
        · simp only [checkFeeUpdate, hcts] at h
          exact priceCheckPhase_false_zero env ut dt ub db x h
        · simp only [checkFeeUpdate, hcts] at h
          simp at h
          exact h.symm
  subst hx
  exact ⟨rfl, h⟩

/-- C10, witness: applied to an in-band environment where the check
returns false, the returned price is exactly 0. -/
theorem check_false_means_zero_price_witness :
    (0 : Felt) = 0 ∧ (checkFeeUpdate envInBand none 105 85 110 90).2.1 = .ok (false, 0) :=
  check_false_means_zero_price envInBand none 105 85 110 90 0 rfl

end PPFeeUpdater
